import Mathlib

set_option maxRecDepth 100000

/-!
Shallow embedding of the file-storage service from
`internal/app/service.go` (Go, aws-examples-dynamodb-s3).

The service stores JPEG bytes in an object store (S3) keyed by
`id + extension`, and a metadata record per file in a metadata store
(DynamoDB) keyed by `ID` with a secondary index on `Hash`.

Modelling conventions:
  * bytes are `Nat` (each `< 256` where it matters, made explicit in lemmas);
  * the two external stores are association lists inside `ServiceState`;
  * external-call outcomes that depend on the environment (network failures,
    presigned-URL contents) are supplied by an `Env` record of success flags
    and the store's URL function;
  * every store mutation that the code *issues* is recorded in an `Effect`
    trace, whether or not it succeeds; the state is only changed on success;
  * a Go nil-pointer dereference is modelled by the `HttpOut.panicked`
    outcome (the Go HTTP server recovers the panic and writes no response).
-/

/-! ### SHA-256 (crypto/sha256) and lowercase hex (encoding/hex)

`calculateHash` in the source is `hex.EncodeToString(sha256.Sum256(data))`.
The compression function below is FIPS 180-4 / crypto/sha256, word-level,
on `Nat` with explicit reduction modulo `2 ^ 32`. -/

/-- Reduce to a 32-bit word. -/
def u32 (x : Nat) : Nat := x % 4294967296

/-- Right rotation of a 32-bit word (`x < 2 ^ 32` expected). -/
def rotr32 (x n : Nat) : Nat := u32 ((x >>> n) ||| (x <<< (32 - n)))

/-- Schedule function sigma0 of SHA-256. -/
def schedS0 (x : Nat) : Nat := (rotr32 x 7) ^^^ (rotr32 x 18) ^^^ (x >>> 3)

/-- Schedule function sigma1 of SHA-256. -/
def schedS1 (x : Nat) : Nat := (rotr32 x 17) ^^^ (rotr32 x 19) ^^^ (x >>> 10)

/-- Round function Sigma0 of SHA-256. -/
def roundS0 (x : Nat) : Nat := (rotr32 x 2) ^^^ (rotr32 x 13) ^^^ (rotr32 x 22)

/-- Round function Sigma1 of SHA-256. -/
def roundS1 (x : Nat) : Nat := (rotr32 x 6) ^^^ (rotr32 x 11) ^^^ (rotr32 x 25)

/-- Ch(x,y,z), with 32-bit complement written as xor with `0xFFFFFFFF`. -/
def chF (x y z : Nat) : Nat := (x &&& y) ^^^ ((x ^^^ 0xFFFFFFFF) &&& z)

/-- Maj(x,y,z). -/
def majF (x y z : Nat) : Nat := (x &&& y) ^^^ (x &&& z) ^^^ (y &&& z)

/-- The 64 SHA-256 round constants. -/
def K256 : List Nat :=
  [1116352408, 1899447441, 3049323471, 3921009573, 961987163,
   1508970993, 2453635748, 2870763221, 3624381080, 310598401,
   607225278, 1426881987, 1925078388, 2162078206, 2614888103,
   3248222580, 3835390401, 4022224774, 264347078, 604807628,
   770255983, 1249150122, 1555081692, 1996064986, 2554220882,
   2821834349, 2952996808, 3210313671, 3336571891, 3584528711,
   113926993, 338241895, 666307205, 773529912, 1294757372,
   1396182291, 1695183700, 1986661051, 2177026350, 2456956037,
   2730485921, 2820302411, 3259730800, 3345764771, 3516065817,
   3600352804, 4094571909, 275423344, 430227734, 506948616,
   659060556, 883997877, 958139571, 1322822218, 1537002063,
   1747873779, 1955562222, 2024104815, 2227730452, 2361852424,
   2428436474, 2756734187, 3204031479, 3329325298]

/-- The eight 32-bit words of a SHA-256 chaining value. -/
structure Hash8 where
  a : Nat
  b : Nat
  c : Nat
  d : Nat
  e : Nat
  f : Nat
  g : Nat
  h : Nat
deriving DecidableEq

/-- SHA-256 initial hash value. -/
def initH : Hash8 :=
  ⟨1779033703, 3144134277, 1013904242,
   2773480762, 1359893119, 2600822924,
   528734635, 1541459225⟩

/-- Message padding of FIPS 180-4 5.1.1: one `0x80` byte, then zero bytes,
then eight bytes holding the bit length big-endian, reaching a 64-byte
boundary. -/
def padMessage (msg : List Nat) : List Nat :=
  let L := msg.length
  let k := (119 - L % 64) % 64
  let bitLen := 8 * L
  msg ++ [0x80] ++ List.replicate k 0 ++
    [(bitLen >>> 56) % 256, (bitLen >>> 48) % 256, (bitLen >>> 40) % 256,
     (bitLen >>> 32) % 256, (bitLen >>> 24) % 256, (bitLen >>> 16) % 256,
     (bitLen >>> 8) % 256, bitLen % 256]

/-- Split a byte list into 64-byte chunks, with fuel for structural
recursion (each step drops 64 bytes, so `l.length` steps always suffice). -/
def chunksAux : Nat → List Nat → List (List Nat)
  | 0, _ => []
  | _, [] => []
  | fuel + 1, l => l.take 64 :: chunksAux fuel (l.drop 64)

/-- Split a byte list into 64-byte chunks. -/
def chunks64 (l : List Nat) : List (List Nat) := chunksAux l.length l

/-- Big-endian 32-bit words from bytes. -/
def bytesToWords : List Nat → List Nat
  | a :: b :: c :: d :: rest =>
      (a * 16777216 + b * 65536 + c * 256 + d) :: bytesToWords rest
  | _ => []

/-- One schedule-extension step: append `σ1 w[n-2] + w[n-7] + σ0 w[n-15] + w[n-16]`. -/
def scheduleStep (w : List Nat) : List Nat :=
  let n := w.length
  w ++ [u32 (schedS1 (w.getD (n - 2) 0) + w.getD (n - 7) 0 +
             schedS0 (w.getD (n - 15) 0) + w.getD (n - 16) 0)]

/-- Iterate a function `n` times. -/
def iterN (f : α → α) : Nat → α → α
  | 0, x => x
  | n + 1, x => iterN f n (f x)

/-- Extend the 16-word block to the 64-word message schedule. -/
def extendSchedule (w : List Nat) : List Nat := iterN scheduleStep 48 w

/-- One SHA-256 compression round for round constant `k` and schedule word `w`. -/
def compressRound (s : Hash8) (kw : Nat × Nat) : Hash8 :=
  let t1 := u32 (s.h + roundS1 s.e + chF s.e s.f s.g + kw.1 + kw.2)
  let t2 := u32 (roundS0 s.a + majF s.a s.b s.c)
  ⟨u32 (t1 + t2), s.a, s.b, s.c, u32 (s.d + t1), s.e, s.f, s.g⟩

/-- Process one 64-byte chunk: 64 rounds then add the chaining value. -/
def processChunk (s : Hash8) (chunk : List Nat) : Hash8 :=
  let w := extendSchedule (bytesToWords chunk)
  let t := (K256.zip w).foldl compressRound s
  ⟨u32 (s.a + t.a), u32 (s.b + t.b), u32 (s.c + t.c), u32 (s.d + t.d),
   u32 (s.e + t.e), u32 (s.f + t.f), u32 (s.g + t.g), u32 (s.h + t.h)⟩

/-- The four big-endian bytes of a 32-bit word. -/
def wordBytes (w : Nat) : List Nat :=
  [(w >>> 24) % 256, (w >>> 16) % 256, (w >>> 8) % 256, w % 256]

/-- SHA-256 digest (32 bytes) of a byte list. -/
def sha256 (msg : List Nat) : List Nat :=
  let s := (chunks64 (padMessage msg)).foldl processChunk initH
  wordBytes s.a ++ wordBytes s.b ++ wordBytes s.c ++ wordBytes s.d ++
  wordBytes s.e ++ wordBytes s.f ++ wordBytes s.g ++ wordBytes s.h

/-- Lowercase hex digit for `n < 16` (`'0'..'9'`, `'a'..'f'`). -/
def hexDigitChar (n : Nat) : Char :=
  if n < 10 then Char.ofNat (48 + n) else Char.ofNat (87 + n)

/-- The two lowercase hex chars of one byte. -/
def hexPair (b : Nat) : List Char := [hexDigitChar (b / 16), hexDigitChar (b % 16)]

/-- Model of `hex.EncodeToString`: lowercase hex of a byte list. -/
def hexEncodeToString (bs : List Nat) : String :=
  String.mk (bs.map hexPair).flatten

/-- Function `calculateHash` from the source: lowercase-hex SHA-256 of the bytes. -/
def calculateHash (data : List Nat) : String :=
  hexEncodeToString (sha256 data)

/-! ### Data model and external-store state -/

/-- Record `FileMetadata` from the source: one row per stored file. -/
structure FileMetadata where
  id : String
  hash : String
  ext : String
  createdAt : String
  updatedAt : String
deriving DecidableEq

/-- The contents of the two external stores: the object store (S3 bucket,
key ↦ bytes) and the metadata store (DynamoDB table rows, keyed by `id`,
with a secondary index on `hash`). -/
structure ServiceState where
  objects : List (String × List Nat)
  items : List FileMetadata
deriving DecidableEq

/-- A store mutation issued by the service (recorded whether or not the
call succeeds; the state only changes on success). Reads (GetItem, Query,
presign) are not mutations and are not recorded. -/
inductive Effect where
  | objPut (key : String)
  | objDelete (key : String)
  | metaPut (m : FileMetadata)
  | metaDelete (id : String)
deriving DecidableEq

/-- Environment: which external calls succeed on this request, and the
object store's presigned-URL function. -/
structure Env where
  getOk : Bool
  queryOk : Bool
  putOk : Bool
  delItemOk : Bool
  putObjOk : Bool
  delObjOk : Bool
  presignOk : Bool
  copyOk : Bool
  presignF : String → String

/-- Outcome of one request: an HTTP response, or a Go runtime panic (the
HTTP server recovers it and writes no response at all). -/
structure FileResponse where
  metadata : FileMetadata
  presignedURL : String
deriving DecidableEq

inductive HttpOut where
  | resp (status : Nat) (body : Option FileResponse)
  | panicked
deriving DecidableEq

/-! ### Helpers from the source -/

/-- Scan backwards for `filepath.Ext`: first `'.'` found before a `'/'`
gives the suffix from that dot. -/
def extFromRev : List Char → List Char
  | [] => []
  | c :: rest =>
      if c = '/' then []
      else if c = '.' then ['.']
      else match extFromRev rest with
           | [] => []
           | e => c :: e

/-- Model of `filepath.Ext(path)`: the suffix beginning at the final dot in the
final element of the path; empty if there is no dot. -/
def filepathExt (path : String) : String :=
  String.mk (extFromRev path.data.reverse).reverse

/-- Model of `strings.Replace(s, pat, rep, 1)` over char lists: replace the first
occurrence of `pat`, scanning left to right. -/
def replaceFirst : List Char → List Char → List Char → List Char
  | [], _, _ => []
  | c :: rest, pat, rep =>
      if pat.isPrefixOf (c :: rest) then rep ++ (c :: rest).drop pat.length
      else c :: replaceFirst rest pat rep

/-- Function `replaceLocalstackHostWithLocalhost` from the source. -/
def replaceLocalstackHostWithLocalhost (url : String) : String :=
  String.mk (replaceFirst url.data "http://localstack:4566".data "http://localhost:4566".data)

/-- The 512-byte sniff buffer passed to `http.DetectContentType`: the
leading bytes of the file, zero-padded to 512 (Go allocates a zeroed
512-byte buffer and `Read` fills a prefix of it). -/
def sniffBuffer (bs : List Nat) : List Nat :=
  bs.take 512 ++ List.replicate (512 - min bs.length 512) 0

/-- Captures `http.DetectContentType(buffer) == "image/jpeg"`: the WHATWG
sniffing table used by Go assigns `image/jpeg` exactly to buffers whose
first three bytes are `FF D8 FF`. -/
def detectIsJpeg (buffer : List Nat) : Bool :=
  buffer.take 3 == [0xFF, 0xD8, 0xFF]

/-- The three failure modes of `validateFile` (the caller maps all of
them to HTTP 415). -/
inductive ValError where
  | badExt
  | readFailed
  | notJpeg
deriving DecidableEq

/-- Function `validateFile` from the source, paired with whether the file stream
was read at all. The extension check runs first and returns before any
read; then the sniff read (`file.Read` returns `io.EOF` — an error — on an
empty stream); then content detection on the 512-byte buffer. -/
def validateFileR (bytes : List Nat) (fileHeader : String) :
    Except ValError String × Bool :=
  let ext := filepathExt fileHeader
  if ext ≠ ".jpeg" ∧ ext ≠ ".jpg" then (.error .badExt, false)
  else if bytes.isEmpty then (.error .readFailed, true)
  else if detectIsJpeg (sniffBuffer bytes) then (.ok ext, true)
  else (.error .notJpeg, true)

/-- The return value of `validateFile`. -/
def validateFile (bytes : List Nat) (fileHeader : String) : Except ValError String :=
  (validateFileR bytes fileHeader).1

/-- Method `generatePresignedURL`: ask the object store to presign the key, then
rewrite the localstack host. -/
def generatePresignedURL (env : Env) (objectKey : String) : Except Unit String :=
  if env.presignOk then
    .ok (replaceLocalstackHostWithLocalhost (env.presignF objectKey))
  else .error ()

/-- Method `uploadToS3`: S3 PutObject (overwrites the key if present). -/
def uploadToS3 (env : Env) (st : ServiceState) (objectKey : String)
    (fileBuffer : List Nat) : Except Unit ServiceState × List Effect :=
  if env.putObjOk then
    (.ok { st with
            objects := (objectKey, fileBuffer) ::
              st.objects.filter (fun p => p.1 != objectKey) },
     [.objPut objectKey])
  else (.error (), [.objPut objectKey])

/-- Method `saveMetadataToDB`: reject records with empty `id` or `hash` before
any store call; otherwise DynamoDB PutItem (replaces the row with that
`id` if present). -/
def saveMetadataToDB (env : Env) (st : ServiceState) (metadata : FileMetadata) :
    Except Unit ServiceState × List Effect :=
  if metadata.id = "" ∨ metadata.hash = "" then (.error (), [])
  else if env.putOk then
    (.ok { st with
            items := metadata :: st.items.filter (fun r => r.id != metadata.id) },
     [.metaPut metadata])
  else (.error (), [.metaPut metadata])

/-- Method `retrieveMetadataFromDB`: DynamoDB GetItem by primary key. A failed
call is an error; a successful call with no row is `.ok none` (the Go
code returns `nil, nil` there). -/
def retrieveMetadataFromDB (env : Env) (st : ServiceState) (id : String) :
    Except Unit (Option FileMetadata) :=
  if env.getOk then .ok (st.items.find? (fun r => r.id == id))
  else .error ()

/-- Method `getFileIDByHash`: reject an empty hash, else Query the hash index
with limit 1 (first matching row wins). -/
def getFileIDByHash (env : Env) (st : ServiceState) (hash : String) :
    Except Unit (Option FileMetadata) :=
  if hash = "" then .error ()
  else if env.queryOk then .ok (st.items.find? (fun r => r.hash == hash))
  else .error ()

/-! ### The three handlers -/

/-- Handler `CreateFile` (POST /file). Inputs beyond the state and environment:
the parsed form file (`none` when `r.FormFile` fails), the fresh UUID the
handler would generate, and the formatted current time. Returns the HTTP
outcome, the resulting store state, and the trace of issued mutations. -/
def createFile (env : Env) (st : ServiceState)
    (form : Option (String × List Nat)) (freshId now : String) :
    HttpOut × ServiceState × List Effect :=
  match form with
  | none => (.resp 400 none, st, [])
  | some (filename, bytes) =>
    match validateFile bytes filename with
    | .error _ => (.resp 415 none, st, [])
    | .ok ext =>
      if env.copyOk = false then (.resp 500 none, st, [])
      else
        let hash := calculateHash bytes
        match getFileIDByHash env st hash with
        | .error _ => (.resp 500 none, st, [])
        | .ok (some existingFile) =>
          match generatePresignedURL env (existingFile.id ++ existingFile.ext) with
          | .error _ => (.resp 500 none, st, [])
          | .ok url => (.resp 200 (some ⟨existingFile, url⟩), st, [])
        | .ok none =>
          let objectKey := freshId ++ ext
          let metadata : FileMetadata := ⟨freshId, hash, ext, now, now⟩
          match uploadToS3 env st objectKey bytes with
          | (.error _, fx) => (.resp 500 none, st, fx)
          | (.ok st1, fx1) =>
            match saveMetadataToDB env st1 metadata with
            | (.error _, fx2) => (.resp 500 none, st1, fx1 ++ fx2)
            | (.ok st2, fx2) =>
              match generatePresignedURL env objectKey with
              | .error _ => (.resp 500 none, st2, fx1 ++ fx2)
              | .ok url => (.resp 201 (some ⟨metadata, url⟩), st2, fx1 ++ fx2)

/-- Handler `GetFile` (GET /file/{id}). -/
def getFile (env : Env) (st : ServiceState) (id : String) :
    HttpOut × ServiceState × List Effect :=
  match retrieveMetadataFromDB env st id with
  | .error _ => (.resp 404 none, st, [])
  | .ok none => (.resp 404 none, st, [])
  | .ok (some metadata) =>
    match generatePresignedURL env (metadata.id ++ metadata.ext) with
    | .error _ => (.resp 500 none, st, [])
    | .ok url => (.resp 200 (some ⟨metadata, url⟩), st, [])

/-- Handler `DeleteFile` (DELETE /file/{id}). The Go code checks only the error
of the lookup, not the nil result: a clean lookup with no row reaches
`metadata.ID` on a nil pointer and panics. -/
def deleteFile (env : Env) (st : ServiceState) (id : String) :
    HttpOut × ServiceState × List Effect :=
  match retrieveMetadataFromDB env st id with
  | .error _ => (.resp 404 none, st, [])
  | .ok none => (.panicked, st, [])
  | .ok (some metadata) =>
    let objectKey := metadata.id ++ metadata.ext
    if env.delObjOk = false then (.resp 500 none, st, [.objDelete objectKey])
    else
      let st1 : ServiceState :=
        { st with objects := st.objects.filter (fun p => p.1 != objectKey) }
      if env.delItemOk = false then
        (.resp 500 none, st1, [.objDelete objectKey, .metaDelete id])
      else
        (.resp 204 none,
         { st1 with items := st1.items.filter (fun r => r.id != id) },
         [.objDelete objectKey, .metaDelete id])

/-! ### Concrete fixtures shared by witnesses -/

/-- A minimal byte string that sniffs as `image/jpeg` (the JPEG SOI marker). -/
def jpegBytes : List Nat := [0xFF, 0xD8, 0xFF]

/-- All external calls succeed; presigned URLs come back with the
localstack host, as in the docker-compose deployment. -/
def envAllOk : Env :=
  ⟨true, true, true, true, true, true, true, true,
   fun key => "http://localstack:4566/file-storage-bucket/" ++ key⟩

/-- Empty stores. -/
def st0 : ServiceState := ⟨[], []⟩

/-- A stored record unrelated to the uploads in the witnesses. -/
def m1 : FileMetadata := ⟨"id1", "h1", ".jpg", "t", "t"⟩

/-- Stores holding exactly `m1` and its object. -/
def stOne : ServiceState := ⟨[("id1.jpg", jpegBytes)], [m1]⟩

/-- Environments with exactly one failing external call. -/
def envCopyFail : Env := { envAllOk with copyOk := false }

def envQueryFail : Env := { envAllOk with queryOk := false }

def envPutObjFail : Env := { envAllOk with putObjOk := false }

def envPutFail : Env := { envAllOk with putOk := false }

def envDelObjFail : Env := { envAllOk with delObjOk := false }

def envDelItemFail : Env := { envAllOk with delItemOk := false }

/-- A record already stored for the content `jpegBytes` (dedup target). -/
def mHit : FileMetadata := ⟨"id0", calculateHash jpegBytes, ".jpg", "t0", "t0"⟩

/-- Stores holding exactly `mHit` and its object. -/
def stHit : ServiceState := ⟨[("id0.jpg", jpegBytes)], [mHit]⟩

/-- The lowercase-hex alphabet `0..9a..f`, as a predicate on characters. -/
def isLowerHexDigit (c : Char) : Bool :=
  (decide ('0' ≤ c) && decide (c ≤ '9')) || (decide ('a' ≤ c) && decide (c ≤ 'f'))

/-! ### Facts about `calculateHash` -/

/-- FIPS 180-4 test vector: the digest of the empty message. -/
theorem calculateHash_empty_vector :
    calculateHash [] =
      "e3b0c44298fc1c149afbf4c8996fb92427ae41e4649b934ca495991b7852b855" := by
  rfl

/-- FIPS 180-4 test vector: the digest of "abc". -/
theorem calculateHash_abc_vector :
    calculateHash [97, 98, 99] =
      "ba7816bf8f01cfea414140de5dae2223b00361a396177a9cb410ff61f20015ad" := by
  rfl


/-- Every SHA-256 digest byte is reduced modulo 256. -/
theorem wordBytes_lt {b w : Nat} (h : b ∈ wordBytes w) : b < 256 := by
  simp only [wordBytes, List.mem_cons, List.not_mem_nil, or_false] at h
  rcases h with h | h | h | h <;> subst h <;> exact Nat.mod_lt _ (by norm_num)

/-- The digest has 32 bytes. -/
theorem sha256_length (msg : List Nat) : (sha256 msg).length = 32 := by
  simp [sha256, wordBytes]

/-- Every digest byte is below 256. -/
theorem sha256_byte_lt {msg : List Nat} {b : Nat} (h : b ∈ sha256 msg) :
    b < 256 := by
  simp only [sha256, List.mem_append] at h
  rcases h with ((((((h | h) | h) | h) | h) | h) | h) | h <;> exact wordBytes_lt h

/-- Function `hexDigitChar` lands in `0..9a..f` for digits below 16. -/
theorem hexDigitChar_lowerHex {n : Nat} (h : n < 16) :
    isLowerHexDigit (hexDigitChar n) = true := by
  interval_cases n <;> decide

/-- Hex encoding yields two chars per byte. -/
theorem hexEncodeToString_length (bs : List Nat) :
    (hexEncodeToString bs).length = 2 * bs.length := by
  induction bs with
  | nil => rfl
  | cons b t ih =>
      simp only [hexEncodeToString, String.length, List.map_cons, List.flatten_cons,
        hexPair, List.length_append, List.length_cons, List.length_nil] at *
      omega

/-- Characters of the hex encoding of bytes below 256 are lowercase hex. -/
theorem hexEncodeToString_chars {bs : List Nat} (hb : ∀ b ∈ bs, b < 256) :
    ∀ c ∈ (hexEncodeToString bs).data, isLowerHexDigit c = true := by
  intro c hc
  simp only [hexEncodeToString, List.mem_flatten, List.mem_map] at hc
  obtain ⟨l, ⟨b, hbmem, rfl⟩, hcl⟩ := hc
  have hblt := hb b hbmem
  simp only [hexPair, List.mem_cons, List.not_mem_nil, or_false] at hcl
  rcases hcl with rfl | rfl
  · exact hexDigitChar_lowerHex (by omega)
  · exact hexDigitChar_lowerHex (by omega)

/-- The stored hash string always has 64 characters. -/
theorem calculateHash_length (data : List Nat) :
    (calculateHash data).length = 64 := by
  simp [calculateHash, hexEncodeToString_length, sha256_length]

/-- The stored hash string is entirely lowercase hex. -/
theorem calculateHash_chars (data : List Nat) :
    ∀ c ∈ (calculateHash data).data, isLowerHexDigit c = true :=
  hexEncodeToString_chars (fun _ hb => sha256_byte_lt hb)

/-- The stored hash string is never empty (it has 64 characters). -/
theorem calculateHash_ne_empty (data : List Nat) : calculateHash data ≠ "" := by
  intro h
  have := calculateHash_length data
  rw [h] at this
  exact absurd this (by decide)

/-! ### Frame helpers shared across claims -/

/-- Handler `GetFile` never touches either store: whatever the lookup and presign
outcomes, the state is returned unchanged and no mutation is issued. -/
theorem getFile_frame (env : Env) (st : ServiceState) (id : String) :
    (getFile env st id).2.1 = st ∧ (getFile env st id).2.2 = [] := by
  unfold getFile
  split
  · exact ⟨rfl, rfl⟩
  · exact ⟨rfl, rfl⟩
  · split <;> exact ⟨rfl, rfl⟩

/-- Handler `DeleteFile` only ever removes rows: every metadata record still
present afterwards was present before. -/
theorem deleteFile_items_sub (env : Env) (st : ServiceState) (id : String) :
    ∀ r ∈ (deleteFile env st id).2.1.items, r ∈ st.items := by
  intro r hr
  unfold deleteFile at hr
  split at hr
  · exact hr
  · exact hr
  · dsimp only at hr
    split at hr
    · exact hr
    · split at hr
      · exact hr
      · exact (List.mem_filter.mp hr).1

/-! ### Claims -/

/-- C10: a GET /file/{id} request, whatever its outcome (success,
not-found on a failed or empty lookup, or presign failure), issues no
object-store put or delete and no metadata-store put or delete: the
mutation trace is empty and both stores are returned unchanged. -/
theorem C10_getFile_is_read_only (env : Env) (st : ServiceState) (id : String) :
    (getFile env st id).2.1 = st ∧ (getFile env st id).2.2 = [] :=
  getFile_frame env st id

/-- C1 (code bug): a DELETE /file/{id} whose lookup completes without
error but finds no record does not answer 404 — the handler dereferences
the nil metadata pointer and panics, writing no response at all (though
it indeed performs no object-store and no metadata-store delete: the
trace is empty and the state is unchanged). Concretely, deleting the
absent id "missing" from a healthy store panics. -/
theorem C1_delete_of_missing_record_panics :
    deleteFile envAllOk stOne "missing" = (.panicked, stOne, []) ∧
    HttpOut.panicked ≠ HttpOut.resp 404 none := by
  exact ⟨by decide, by decide⟩

/-- C6: an upload whose submitted filename's extension is not exactly
".jpg" or ".jpeg" is rejected with 415 with both stores untouched, and
`validateFile` returns its extension error without ever reading the file
stream (the `Bool` component of `validateFileR` records whether the
stream was read): rejection happens before any content sniffing and
before any bytes are consumed. -/
theorem C6_bad_ext_rejected_before_any_read (env : Env) (st : ServiceState)
    (name : String) (bytes : List Nat) (freshId now : String)
    (h1 : filepathExt name ≠ ".jpg") (h2 : filepathExt name ≠ ".jpeg") :
    createFile env st (some (name, bytes)) freshId now = (.resp 415 none, st, []) ∧
    validateFileR bytes name = (.error .badExt, false) := by
  have hv : validateFileR bytes name = (.error .badExt, false) := by
    unfold validateFileR
    rw [if_pos ⟨h2, h1⟩]
  refine ⟨?_, hv⟩
  unfold createFile validateFile
  dsimp only
  rw [hv]

/-- C6 witness: a PNG-named upload with valid JPEG content is still
rejected with 415, without the stream being read. -/
theorem C6_witness :
    createFile envAllOk st0 (some ("a.png", jpegBytes)) "idN" "t" =
      (.resp 415 none, st0, []) ∧
    validateFileR jpegBytes "a.png" = (.error .badExt, false) :=
  C6_bad_ext_rejected_before_any_read envAllOk st0 "a.png" jpegBytes "idN" "t"
    (by decide) (by decide)

/-- C8: `saveMetadataToDB` rejects a record whose id or hash is the empty
string before issuing any store call (error result, empty mutation
trace, state unchanged); consequently a metadata store whose records all
have non-empty id and hash keeps that invariant across any successful
save. -/
theorem C8_save_requires_nonempty_id_and_hash (env : Env) (st : ServiceState)
    (m : FileMetadata) :
    (m.id = "" ∨ m.hash = "" → saveMetadataToDB env st m = (.error (), [])) ∧
    (∀ st', (saveMetadataToDB env st m).1 = .ok st' →
      (∀ r ∈ st.items, r.id ≠ "" ∧ r.hash ≠ "") →
      ∀ r ∈ st'.items, r.id ≠ "" ∧ r.hash ≠ "") := by
  constructor
  · intro h
    unfold saveMetadataToDB
    rw [if_pos h]
  · intro st' hok hinv r hr
    unfold saveMetadataToDB at hok
    by_cases hemp : m.id = "" ∨ m.hash = ""
    · rw [if_pos hemp] at hok
      exact absurd hok (by simp)
    · rw [if_neg hemp] at hok
      by_cases hput : env.putOk = true
      · rw [if_pos hput] at hok
        simp only [Except.ok.injEq] at hok
        subst hok
        push_neg at hemp
        rcases List.mem_cons.mp hr with rfl | hr'
        · exact hemp
        · exact hinv r (List.mem_filter.mp hr').1
      · rw [if_neg hput] at hok
        exact absurd hok (by simp)

/-- C8 witness: an empty-id record is rejected with no store call, and a
store of well-formed records stays well-formed across a successful save. -/
theorem C8_witness :
    saveMetadataToDB envAllOk st0 ⟨"", "h1", ".jpg", "t", "t"⟩ = (.error (), []) ∧
    ∀ r ∈ (ServiceState.mk [] [m1]).items, r.id ≠ "" ∧ r.hash ≠ "" :=
  ⟨(C8_save_requires_nonempty_id_and_hash envAllOk st0 ⟨"", "h1", ".jpg", "t", "t"⟩).1
     (Or.inl rfl),
   (C8_save_requires_nonempty_id_and_hash envAllOk st0 m1).2
     ⟨[], [m1]⟩ (by rfl) (by decide)⟩

/-- C7: when the DELETE lookup succeeds with a record, the object-store
delete is issued before the metadata-store delete (the trace lists
`objDelete` first); a failed object delete answers 500 with the metadata
untouched, a failed metadata delete answers 500 with the metadata rows
exactly as before (the record survives) and no compensating mutation in
the trace, and the success case answers 204 after both deletes. -/
theorem C7_delete_order_and_no_compensation (env : Env) (st : ServiceState)
    (id : String) (m : FileMetadata)
    (hget : env.getOk = true)
    (hfound : st.items.find? (fun r => r.id == id) = some m) :
    (env.delObjOk = false →
       deleteFile env st id =
         (.resp 500 none, st, [.objDelete (m.id ++ m.ext)])) ∧
    (env.delObjOk = true → env.delItemOk = false →
       deleteFile env st id =
         (.resp 500 none,
          ⟨st.objects.filter (fun p => p.1 != m.id ++ m.ext), st.items⟩,
          [.objDelete (m.id ++ m.ext), .metaDelete id])) ∧
    (env.delObjOk = true → env.delItemOk = true →
       deleteFile env st id =
         (.resp 204 none,
          ⟨st.objects.filter (fun p => p.1 != m.id ++ m.ext),
           st.items.filter (fun r => r.id != id)⟩,
          [.objDelete (m.id ++ m.ext), .metaDelete id])) := by
  have hl : retrieveMetadataFromDB env st id = .ok (some m) := by
    unfold retrieveMetadataFromDB
    rw [if_pos hget, hfound]
  refine ⟨?_, ?_, ?_⟩
  · intro hobj
    unfold deleteFile
    rw [hl]
    dsimp only
    rw [if_pos hobj]
  · intro hobj hitem
    unfold deleteFile
    rw [hl]
    dsimp only
    rw [if_neg (by simp [hobj]),
        if_pos hitem]
  · intro hobj hitem
    unfold deleteFile
    rw [hl]
    dsimp only
    rw [if_neg (by simp [hobj]),
        if_neg (by simp [hitem])]

/-- C7 witness: deleting the stored record `m1` under each of the three
store behaviours. -/
theorem C7_witness :
    deleteFile envDelObjFail stOne "id1" =
      (.resp 500 none, stOne, [.objDelete (m1.id ++ m1.ext)]) ∧
    deleteFile envDelItemFail stOne "id1" =
      (.resp 500 none,
       ⟨stOne.objects.filter (fun p => p.1 != m1.id ++ m1.ext), stOne.items⟩,
       [.objDelete (m1.id ++ m1.ext), .metaDelete "id1"]) ∧
    deleteFile envAllOk stOne "id1" =
      (.resp 204 none,
       ⟨stOne.objects.filter (fun p => p.1 != m1.id ++ m1.ext),
        stOne.items.filter (fun r => r.id != "id1")⟩,
       [.objDelete (m1.id ++ m1.ext), .metaDelete "id1"]) :=
  ⟨(C7_delete_order_and_no_compensation envDelObjFail stOne "id1" m1 rfl
      (by decide)).1 rfl,
   (C7_delete_order_and_no_compensation envDelItemFail stOne "id1" m1 rfl
      (by decide)).2.1 rfl rfl,
   (C7_delete_order_and_no_compensation envAllOk stOne "id1" m1 rfl
      (by decide)).2.2 rfl rfl⟩

/-- C3: an upload whose content hash matches an existing metadata record
writes nothing to either store — the state is unchanged and the mutation
trace is empty — and answers 200 (not 201) with the existing record
unchanged, paired with a freshly generated presigned URL for the
existing record's object key. -/
theorem C3_dedup_hit_is_read_only (env : Env) (st : ServiceState)
    (name : String) (bytes : List Nat) (ext : String) (m : FileMetadata)
    (freshId now : String)
    (hval : validateFile bytes name = .ok ext)
    (hcopy : env.copyOk = true) (hquery : env.queryOk = true)
    (hpresign : env.presignOk = true)
    (hhit : st.items.find? (fun r => r.hash == calculateHash bytes) = some m) :
    createFile env st (some (name, bytes)) freshId now =
      (.resp 200 (some ⟨m, replaceLocalstackHostWithLocalhost
          (env.presignF (m.id ++ m.ext))⟩), st, []) := by
  have hq : getFileIDByHash env st (calculateHash bytes) = .ok (some m) := by
    unfold getFileIDByHash
    rw [if_neg (calculateHash_ne_empty bytes), if_pos hquery, hhit]
  have hp : generatePresignedURL env (m.id ++ m.ext) =
      .ok (replaceLocalstackHostWithLocalhost (env.presignF (m.id ++ m.ext))) := by
    unfold generatePresignedURL
    rw [if_pos hpresign]
  unfold createFile validateFile at *
  dsimp only
  rw [hval]
  dsimp only
  rw [if_neg (by simp [hcopy])]
  rw [hq]
  dsimp only
  rw [hp]

/-- C3 witness: re-uploading the bytes whose record `mHit` is already
stored returns 200 with `mHit` itself and a fresh URL for its key, and
leaves both stores untouched. -/
theorem C3_witness :
    createFile envAllOk stHit (some ("b.jpg", jpegBytes)) "idN" "t2" =
      (.resp 200 (some ⟨mHit, replaceLocalstackHostWithLocalhost
          (envAllOk.presignF (mHit.id ++ mHit.ext))⟩), stHit, []) :=
  C3_dedup_hit_is_read_only envAllOk stHit "b.jpg" jpegBytes ".jpg" mHit "idN" "t2"
    (by rfl) rfl rfl rfl (by rfl)

/-- C4: every successfully created file (201 response) carries in its
metadata the lowercase-hex SHA-256 digest of exactly the full uploaded
bytes, hence a 64-character lowercase-hex string. -/
theorem C4_created_hash_is_sha256_hex (env : Env) (st : ServiceState)
    (name : String) (bytes : List Nat) (freshId now : String)
    (body : FileResponse) (st2 : ServiceState) (fx : List Effect)
    (h : createFile env st (some (name, bytes)) freshId now =
          (.resp 201 (some body), st2, fx)) :
    body.metadata.hash = calculateHash bytes ∧
    body.metadata.hash.length = 64 ∧
    ∀ c ∈ body.metadata.hash.data, isLowerHexDigit c = true := by
  unfold createFile at h
  dsimp only at h
  split at h
  · simp at h
  · split at h
    · simp at h
    · split at h
      · simp at h
      · split at h
        · simp at h
        · simp at h
      · split at h
        · simp at h
        · split at h
          · simp at h
          · split at h
            · simp at h
            · simp only [Prod.mk.injEq, HttpOut.resp.injEq, Option.some.injEq] at h
              obtain ⟨⟨-, hbody⟩, -, -⟩ := h
              subst hbody
              exact ⟨rfl, calculateHash_length bytes, calculateHash_chars bytes⟩

/-- C4 witness: a fresh upload of `jpegBytes` creates a record whose
hash is `calculateHash jpegBytes`, 64 lowercase-hex characters. -/
theorem C4_witness :
    (⟨⟨"id1", calculateHash jpegBytes, ".jpg", "t", "t"⟩,
      "http://localhost:4566/file-storage-bucket/id1.jpg"⟩ : FileResponse).metadata.hash
        = calculateHash jpegBytes ∧
    (⟨⟨"id1", calculateHash jpegBytes, ".jpg", "t", "t"⟩,
      "http://localhost:4566/file-storage-bucket/id1.jpg"⟩ : FileResponse).metadata.hash.length
        = 64 ∧
    ∀ c ∈ (⟨⟨"id1", calculateHash jpegBytes, ".jpg", "t", "t"⟩,
      "http://localhost:4566/file-storage-bucket/id1.jpg"⟩ : FileResponse).metadata.hash.data,
        isLowerHexDigit c = true :=
  C4_created_hash_is_sha256_hex envAllOk st0 "a.jpg" jpegBytes "id1" "t"
    ⟨⟨"id1", calculateHash jpegBytes, ".jpg", "t", "t"⟩,
     "http://localhost:4566/file-storage-bucket/id1.jpg"⟩
    ⟨[("id1.jpg", jpegBytes)], [⟨"id1", calculateHash jpegBytes, ".jpg", "t", "t"⟩]⟩
    [.objPut "id1.jpg", .metaPut ⟨"id1", calculateHash jpegBytes, ".jpg", "t", "t"⟩]
    (by rfl)

/-- C5 counterexample: an upload of an empty file named "a.jpg" passes
form parsing and the extension check, then the sniff read fails
(`file.Read` returns `io.EOF`); `validateFile` reports that read failure
and the handler answers 415, not the 500 the claim requires for every
read failure. -/
theorem C5_counterexample_sniff_read_failure_is_415 :
    validateFileR [] "a.jpg" = (.error .readFailed, true) ∧
    createFile envAllOk st0 (some ("a.jpg", [])) "id1" "t" =
      (.resp 415 none, st0, []) ∧
    (HttpOut.resp 415 none : HttpOut) ≠ .resp 500 none :=
  ⟨by rfl, by rfl, by decide⟩

/-- C5 amended: a missing or unparsable form file answers 400; every
`validateFile` failure — invalid extension, sniff-read failure, or
non-JPEG sniffed content — answers 415; and failures of the full-content
read, of the hash query, of the object upload, or of the metadata write
answer 500. -/
theorem C5_amended_error_mapping (env : Env) (st : ServiceState)
    (name : String) (bytes : List Nat) (freshId now : String) :
    (createFile env st none freshId now).1 = .resp 400 none ∧
    (∀ e, validateFile bytes name = .error e →
       (createFile env st (some (name, bytes)) freshId now).1 = .resp 415 none) ∧
    (∀ ext, validateFile bytes name = .ok ext → env.copyOk = false →
       (createFile env st (some (name, bytes)) freshId now).1 = .resp 500 none) ∧
    (∀ ext, validateFile bytes name = .ok ext → env.copyOk = true →
       getFileIDByHash env st (calculateHash bytes) = .error () →
       (createFile env st (some (name, bytes)) freshId now).1 = .resp 500 none) ∧
    (∀ ext, validateFile bytes name = .ok ext → env.copyOk = true →
       getFileIDByHash env st (calculateHash bytes) = .ok none →
       env.putObjOk = false →
       (createFile env st (some (name, bytes)) freshId now).1 = .resp 500 none) ∧
    (∀ ext, validateFile bytes name = .ok ext → env.copyOk = true →
       getFileIDByHash env st (calculateHash bytes) = .ok none →
       env.putObjOk = true → env.putOk = false →
       (createFile env st (some (name, bytes)) freshId now).1 = .resp 500 none) := by
  refine ⟨rfl, ?_, ?_, ?_, ?_, ?_⟩
  · intro e he
    unfold createFile validateFile at *
    dsimp only
    rw [he]
  · intro ext he hcopy
    unfold createFile validateFile at *
    dsimp only
    rw [he]
    dsimp only
    rw [if_pos hcopy]
  · intro ext he hcopy hq
    unfold createFile validateFile at *
    dsimp only
    rw [he]
    dsimp only
    rw [if_neg (by simp [hcopy]), hq]
  · intro ext he hcopy hq hpo
    unfold createFile validateFile at *
    dsimp only
    rw [he]
    dsimp only
    rw [if_neg (by simp [hcopy]), hq]
    dsimp only
    unfold uploadToS3
    rw [if_neg (by simp [hpo])]
  · intro ext he hcopy hq hpo hput
    unfold createFile validateFile at *
    dsimp only
    rw [he]
    dsimp only
    rw [if_neg (by simp [hcopy]), hq]
    dsimp only
    unfold uploadToS3
    rw [if_pos hpo]
    dsimp only
    unfold saveMetadataToDB
    by_cases hemp : freshId = "" ∨ calculateHash bytes = ""
    · rw [if_pos hemp]
    · rw [if_neg hemp, if_neg (by simp [hput])]

/-- C5 witness: each error class exercised concretely — missing form
file, PNG extension, failed full read, failed hash query, failed object
upload, failed metadata write. -/
theorem C5_witness :
    (createFile envAllOk st0 none "id1" "t").1 = .resp 400 none ∧
    (createFile envAllOk st0 (some ("a.png", jpegBytes)) "id1" "t").1 = .resp 415 none ∧
    (createFile envCopyFail st0 (some ("a.jpg", jpegBytes)) "id1" "t").1 = .resp 500 none ∧
    (createFile envQueryFail st0 (some ("a.jpg", jpegBytes)) "id1" "t").1 = .resp 500 none ∧
    (createFile envPutObjFail st0 (some ("a.jpg", jpegBytes)) "id1" "t").1 = .resp 500 none ∧
    (createFile envPutFail st0 (some ("a.jpg", jpegBytes)) "id1" "t").1 = .resp 500 none :=
  ⟨(C5_amended_error_mapping envAllOk st0 "x" [] "id1" "t").1,
   (C5_amended_error_mapping envAllOk st0 "a.png" jpegBytes "id1" "t").2.1
     .badExt (by rfl),
   (C5_amended_error_mapping envCopyFail st0 "a.jpg" jpegBytes "id1" "t").2.2.1
     ".jpg" (by rfl) rfl,
   (C5_amended_error_mapping envQueryFail st0 "a.jpg" jpegBytes "id1" "t").2.2.2.1
     ".jpg" (by rfl) rfl (by rfl),
   (C5_amended_error_mapping envPutObjFail st0 "a.jpg" jpegBytes "id1" "t").2.2.2.2.1
     ".jpg" (by rfl) rfl (by rfl) rfl,
   (C5_amended_error_mapping envPutFail st0 "a.jpg" jpegBytes "id1" "t").2.2.2.2.2
     ".jpg" (by rfl) rfl (by rfl) rfl rfl⟩

/-- C9: a record created by a successful upload has `createdAt` and
`updatedAt` both equal to the single formatted timestamp taken at
creation, and no operation of the service ever changes a stored record
afterwards: an upload (with a fresh generated id, as `uuid.New`
guarantees) keeps every pre-existing record as is, a retrieve leaves the
whole state untouched, and a delete only removes whole records. -/
theorem C9_timestamps_equal_and_records_immutable (env : Env) (st : ServiceState)
    (name : String) (bytes : List Nat) (freshId now gid did : String)
    (hfresh : ∀ r ∈ st.items, r.id ≠ freshId) :
    (∀ body st2 fx,
       createFile env st (some (name, bytes)) freshId now =
         (.resp 201 (some body), st2, fx) →
       body.metadata.createdAt = now ∧ body.metadata.updatedAt = now ∧
       body.metadata ∈ st2.items) ∧
    (∀ r ∈ st.items,
       r ∈ ((createFile env st (some (name, bytes)) freshId now).2.1).items) ∧
    (getFile env st gid).2.1 = st ∧
    (∀ r ∈ (deleteFile env st did).2.1.items, r ∈ st.items) := by
  refine ⟨?_, ?_, (getFile_frame env st gid).1, deleteFile_items_sub env st did⟩
  · intro body st2 fx h
    unfold createFile at h
    dsimp only at h
    split at h
    · simp at h
    · split at h
      · simp at h
      · split at h
        · simp at h
        · split at h <;> simp at h
        · split at h
          · simp at h
          · split at h
            · simp at h
            · rename_i st2' fx2 hsave
              split at h
              · simp at h
              · simp only [Prod.mk.injEq, HttpOut.resp.injEq, Option.some.injEq] at h
                obtain ⟨⟨-, hbody⟩, hst2, -⟩ := h
                subst hbody
                subst hst2
                refine ⟨rfl, rfl, ?_⟩
                unfold saveMetadataToDB at hsave
                split at hsave
                · simp at hsave
                · split at hsave
                  · simp only [Prod.mk.injEq, Except.ok.injEq] at hsave
                    rw [← hsave.1]
                    exact List.mem_cons_self _ _
                  · simp at hsave
  · intro r hr
    unfold createFile
    dsimp only
    split
    · exact hr
    · split
      · exact hr
      · split
        · exact hr
        · split <;> exact hr
        · split
          · exact hr
          · rename_i st1 fx1 hup
            have hitems : st1.items = st.items := by
              unfold uploadToS3 at hup
              split at hup
              · simp only [Prod.mk.injEq, Except.ok.injEq] at hup
                rw [← hup.1]
              · simp at hup
            split
            · rw [hitems]; exact hr
            · rename_i st2' fx2 hsave
              have hmem : r ∈ st2'.items := by
                unfold saveMetadataToDB at hsave
                split at hsave
                · simp at hsave
                · split at hsave
                  · simp only [Prod.mk.injEq, Except.ok.injEq] at hsave
                    rw [← hsave.1]
                    refine List.mem_cons_of_mem _ (List.mem_filter.mpr ⟨?_, ?_⟩)
                    · rw [hitems]; exact hr
                    · simp only [bne_iff_ne, ne_eq]
                      exact hfresh r hr
                  · simp at hsave
              split <;> exact hmem

/-- C9 witness: a concrete upload next to the unrelated stored record
`m1` creates a record with equal timestamps, keeps `m1` intact, and a
retrieve and a delete touch no other record. -/
theorem C9_witness :
    ((⟨⟨"idN", calculateHash jpegBytes, ".jpg", "t", "t"⟩,
       "http://localhost:4566/file-storage-bucket/idN.jpg"⟩ : FileResponse).metadata.createdAt = "t" ∧
     (⟨⟨"idN", calculateHash jpegBytes, ".jpg", "t", "t"⟩,
       "http://localhost:4566/file-storage-bucket/idN.jpg"⟩ : FileResponse).metadata.updatedAt = "t" ∧
     (⟨⟨"idN", calculateHash jpegBytes, ".jpg", "t", "t"⟩,
       "http://localhost:4566/file-storage-bucket/idN.jpg"⟩ : FileResponse).metadata ∈
       (ServiceState.mk [("idN.jpg", jpegBytes), ("id1.jpg", jpegBytes)]
          [⟨"idN", calculateHash jpegBytes, ".jpg", "t", "t"⟩, m1]).items) ∧
    m1 ∈ ((createFile envAllOk stOne (some ("a.jpg", jpegBytes)) "idN" "t").2.1).items ∧
    (getFile envAllOk stOne "g").2.1 = stOne ∧
    m1 ∈ stOne.items :=
  ⟨(C9_timestamps_equal_and_records_immutable envAllOk stOne "a.jpg" jpegBytes
      "idN" "t" "g" "other" (by decide)).1
      ⟨⟨"idN", calculateHash jpegBytes, ".jpg", "t", "t"⟩,
       "http://localhost:4566/file-storage-bucket/idN.jpg"⟩
      (ServiceState.mk [("idN.jpg", jpegBytes), ("id1.jpg", jpegBytes)]
         [⟨"idN", calculateHash jpegBytes, ".jpg", "t", "t"⟩, m1])
      [.objPut "idN.jpg", .metaPut ⟨"idN", calculateHash jpegBytes, ".jpg", "t", "t"⟩]
      (by rfl),
   (C9_timestamps_equal_and_records_immutable envAllOk stOne "a.jpg" jpegBytes
      "idN" "t" "g" "other" (by decide)).2.1 m1 (by decide),
   (C9_timestamps_equal_and_records_immutable envAllOk stOne "a.jpg" jpegBytes
      "idN" "t" "g" "other" (by decide)).2.2.1,
   (C9_timestamps_equal_and_records_immutable envAllOk stOne "a.jpg" jpegBytes
      "idN" "t" "g" "other" (by decide)).2.2.2 m1 (by decide)⟩

/-- C2: two sequential uploads of the same valid JPEG bytes (stores
behaving per contract, the fresh id non-empty, no record for that hash
and no object with those bytes beforehand) answer 201 then 200, both
with the very same metadata record — hence the same id and hash — and
afterwards exactly one metadata record with that hash and exactly one
object with those bytes exist. -/
theorem C2_duplicate_upload_same_record (env : Env) (st : ServiceState)
    (name : String) (bytes : List Nat) (ext : String)
    (id1 id2 now1 now2 : String)
    (hval : validateFile bytes name = .ok ext)
    (hcopy : env.copyOk = true) (hquery : env.queryOk = true)
    (hputObj : env.putObjOk = true) (hput : env.putOk = true)
    (hpresign : env.presignOk = true)
    (hid1 : id1 ≠ "")
    (hmiss : st.items.find? (fun r => r.hash == calculateHash bytes) = none)
    (hobj : st.objects.countP (fun p => p.2 == bytes) = 0) :
    ∃ m url1 url2 st1 fx1,
      createFile env st (some (name, bytes)) id1 now1 =
        (.resp 201 (some ⟨m, url1⟩), st1, fx1) ∧
      createFile env st1 (some (name, bytes)) id2 now2 =
        (.resp 200 (some ⟨m, url2⟩), st1, []) ∧
      m.id = id1 ∧ m.hash = calculateHash bytes ∧
      st1.items.countP (fun r => r.hash == calculateHash bytes) = 1 ∧
      st1.objects.countP (fun p => p.2 == bytes) = 1 := by
  have hne := calculateHash_ne_empty bytes
  refine ⟨⟨id1, calculateHash bytes, ext, now1, now1⟩,
    replaceLocalstackHostWithLocalhost (env.presignF (id1 ++ ext)),
    replaceLocalstackHostWithLocalhost (env.presignF (id1 ++ ext)),
    ⟨(id1 ++ ext, bytes) :: st.objects.filter (fun p => p.1 != id1 ++ ext),
     ⟨id1, calculateHash bytes, ext, now1, now1⟩ ::
       st.items.filter (fun r => r.id != id1)⟩,
    [.objPut (id1 ++ ext), .metaPut ⟨id1, calculateHash bytes, ext, now1, now1⟩],
    ?_, ?_, rfl, rfl, ?_, ?_⟩
  · have hq1 : getFileIDByHash env st (calculateHash bytes) = .ok none := by
      unfold getFileIDByHash
      rw [if_neg hne, if_pos hquery, hmiss]
    unfold createFile validateFile at *
    dsimp only
    rw [hval]
    dsimp only
    rw [if_neg (by simp [hcopy]), hq1]
    dsimp only
    unfold uploadToS3
    rw [if_pos hputObj]
    dsimp only
    unfold saveMetadataToDB
    rw [if_neg (by simp [hid1, hne]), if_pos hput]
    dsimp only
    unfold generatePresignedURL
    rw [if_pos hpresign]
    rfl
  · have hq2 : getFileIDByHash env
        ⟨(id1 ++ ext, bytes) :: st.objects.filter (fun p => p.1 != id1 ++ ext),
         ⟨id1, calculateHash bytes, ext, now1, now1⟩ ::
           st.items.filter (fun r => r.id != id1)⟩ (calculateHash bytes) =
        .ok (some ⟨id1, calculateHash bytes, ext, now1, now1⟩) := by
      unfold getFileIDByHash
      rw [if_neg hne, if_pos hquery]
      rw [List.find?_cons_of_pos _ (by simp)]
    unfold createFile validateFile at *
    dsimp only
    rw [hval]
    dsimp only
    rw [if_neg (by simp [hcopy]), hq2]
    dsimp only
    unfold generatePresignedURL
    rw [if_pos hpresign]
  · dsimp only
    rw [List.countP_cons_of_pos _ _ (by simp)]
    have hz : (st.items.filter (fun r => r.id != id1)).countP
        (fun r => r.hash == calculateHash bytes) = 0 := by
      refine List.countP_eq_zero.mpr ?_
      intro a ha
      exact List.find?_eq_none.mp hmiss a (List.mem_filter.mp ha).1
    rw [hz]
  · dsimp only
    rw [List.countP_cons_of_pos _ _ (by simp)]
    have hz : (st.objects.filter (fun p => p.1 != id1 ++ ext)).countP
        (fun p => p.2 == bytes) = 0 := by
      refine List.countP_eq_zero.mpr ?_
      intro a ha
      exact List.countP_eq_zero.mp hobj a (List.mem_filter.mp ha).1
    rw [hz]

/-- C2 witness: uploading `jpegBytes` twice into empty stores. -/
theorem C2_witness :
    ∃ m url1 url2 st1 fx1,
      createFile envAllOk st0 (some ("a.jpg", jpegBytes)) "id1" "t1" =
        (.resp 201 (some ⟨m, url1⟩), st1, fx1) ∧
      createFile envAllOk st1 (some ("a.jpg", jpegBytes)) "id2" "t2" =
        (.resp 200 (some ⟨m, url2⟩), st1, []) ∧
      m.id = "id1" ∧ m.hash = calculateHash jpegBytes ∧
      st1.items.countP (fun r => r.hash == calculateHash jpegBytes) = 1 ∧
      st1.objects.countP (fun p => p.2 == jpegBytes) = 1 :=
  C2_duplicate_upload_same_record envAllOk st0 "a.jpg" jpegBytes ".jpg"
    "id1" "id2" "t1" "t2" (by rfl) rfl rfl rfl rfl rfl (by decide) rfl rfl
